import Mathlib

/-!
Genesis Plus GX memory export layer

A shallow embedding of the exported query functions of
`src/docker/emscripten_exports_corrected.c` and
`src/docker/emscripten_exports_minimal.c`.

The C functions take no argument and read process-wide globals (`bitmap`,
`system_hw`, and the statically allocated region arrays).  Here the globals are
one explicit record, `CoreState`, and every query is a function of it.
Addresses are natural numbers; `NULL` is address `0`.  A `uint32_t` result is a
`Nat` reduced modulo `2^32`, an `int` result is an `Int` wrapped to 32 bits.
-/

namespace GenesisExports

/-! ## Machine integers -/

/-- Conversion to `uint32_t`: reduction modulo `2^32`. -/
def to_uint32 (n : Nat) : Nat := n % 2 ^ 32

/-- Conversion to (32-bit, two's complement) `int`. -/
def to_int (z : Int) : Int := (z + 2 ^ 31) % 2 ^ 32 - 2 ^ 31

/-! ## Data model -/

/-- The `t_bitmap` struct of `emscripten_exports_corrected.c` (lines 35-41).
`data` is the address held by the pointer field, `0` for `NULL`. -/
structure t_bitmap where
  data : Nat
  width : Int
  height : Int
  pitch : Int
  depth : Int
  deriving DecidableEq, Repr

/-- The globals the export functions read: the `bitmap` struct, the
`unsigned char system_hw`, and the addresses at which the extern arrays
`work_ram`, `zram`, `reg`, `sat`, `vram`, `cram`, `vsram` are placed. -/
structure CoreState where
  bitmap : t_bitmap
  system_hw : Nat
  work_ram : Nat
  zram : Nat
  reg : Nat
  sat : Nat
  vram : Nat
  cram : Nat
  vsram : Nat
  deriving DecidableEq, Repr

/-- A region array of `size` bytes placed at `addr` is a C object in a 32-bit
address space: its address is not `NULL` and it ends inside the space. -/
def validObject (addr size : Nat) : Prop := addr ≠ 0 ∧ addr + size ≤ 2 ^ 32

instance (addr size : Nat) : Decidable (validObject addr size) := by
  unfold validObject; infer_instance

/-- A value of C type `int`. -/
def isInt (z : Int) : Prop := -(2 ^ 31) ≤ z ∧ z < 2 ^ 31

instance (z : Int) : Decidable (isInt z) := by
  unfold isInt; infer_instance

/-- Well-formed states: every field holds a value of its C type and every
extern array (sizes from lines 31-32 and 44-48 of the corrected file) is a
valid object. -/
def CoreState.wf (st : CoreState) : Prop :=
  st.bitmap.data < 2 ^ 32 ∧
  isInt st.bitmap.width ∧ isInt st.bitmap.height ∧
  isInt st.bitmap.pitch ∧ isInt st.bitmap.depth ∧
  st.system_hw < 256 ∧
  validObject st.work_ram 0x10000 ∧
  validObject st.zram 0x2000 ∧
  validObject st.reg 0x20 ∧
  validObject st.sat 0x400 ∧
  validObject st.vram 0x10000 ∧
  validObject st.cram 0x80 ∧
  validObject st.vsram 0x80

instance (st : CoreState) : Decidable st.wf := by
  unfold CoreState.wf; infer_instance

/-- Modelled from the spec: the core's variant switch is not under src/; it is
the store of a new code into the `unsigned char system_hw`. -/
def switch_variant (st : CoreState) (code : Nat) : CoreState :=
  { st with system_hw := code % 256 }

/-! ## `emscripten_exports_corrected.c` -/

namespace Corrected

/-- Lines 67-69: `return (uint32_t)bitmap.data;` -/
def get_frame_buffer_ref (st : CoreState) : Nat := to_uint32 st.bitmap.data

/-- Lines 72-74: `return bitmap.width;` -/
def get_frame_buffer_width (st : CoreState) : Int := st.bitmap.width

/-- Lines 77-79: `return bitmap.height;` -/
def get_frame_buffer_height (st : CoreState) : Int := st.bitmap.height

/-- Lines 82-84: `return bitmap.pitch;` -/
def get_frame_buffer_pitch (st : CoreState) : Int := st.bitmap.pitch

/-- Lines 89-91: `return (uint32_t)work_ram;` -/
def get_work_ram_ptr (st : CoreState) : Nat := to_uint32 st.work_ram

/-- Lines 94-96: `return 0x10000;` -/
def get_work_ram_size (_st : CoreState) : Int := 0x10000

/-- Lines 101-103: `return (uint32_t)zram;` -/
def get_zram_ptr (st : CoreState) : Nat := to_uint32 st.zram

/-- Lines 106-108: `return 0x2000;` -/
def get_zram_size (_st : CoreState) : Int := 0x2000

/-- Lines 113-115: `return (uint32_t)vram;` -/
def get_vram_ptr (st : CoreState) : Nat := to_uint32 st.vram

/-- Lines 118-120: `return 0x10000;` -/
def get_vram_size (_st : CoreState) : Int := 0x10000

/-- Lines 125-127: `return (uint32_t)cram;` -/
def get_cram_ptr (st : CoreState) : Nat := to_uint32 st.cram

/-- Lines 130-132: `return 0x80;` -/
def get_cram_size (_st : CoreState) : Int := 0x80

/-- Lines 137-139: `return (uint32_t)vsram;` -/
def get_vsram_ptr (st : CoreState) : Nat := to_uint32 st.vsram

/-- Lines 142-144: `return 0x80;` -/
def get_vsram_size (_st : CoreState) : Int := 0x80

/-- Lines 149-151: `return (uint32_t)reg;` -/
def get_vdp_regs_ptr (st : CoreState) : Nat := to_uint32 st.reg

/-- Lines 154-156: `return 0x20;` -/
def get_vdp_regs_size (_st : CoreState) : Int := 0x20

/-- Lines 161-163: `return (uint32_t)sat;` -/
def get_sat_ptr (st : CoreState) : Nat := to_uint32 st.sat

/-- Lines 166-168: `return 0x400;` -/
def get_sat_size (_st : CoreState) : Int := 0x400

/-- Lines 177-180: `return (bitmap.data != NULL) ? 1 : 0;` -/
def is_core_initialized (st : CoreState) : Int :=
  if st.bitmap.data ≠ 0 then 1 else 0

/-- Lines 187-190: the sum of seven literals, evaluated in `int`. -/
def get_total_memory_size (_st : CoreState) : Int :=
  to_int (0x10000 + 0x2000 + 0x10000 + 0x80 + 0x80 + 0x20 + 0x400)

/-- Lines 198-200: `return (int)system_hw;` -/
def get_active_system_code (st : CoreState) : Int :=
  to_int (Int.ofNat st.system_hw)

end Corrected

/-! ## `emscripten_exports_minimal.c`

These functions read no global; the state argument is the core state in which
the query is made. -/

namespace Minimal

/-- Lines 18-21: `return 0;` -/
def _get_framebuffer_ptr (_st : CoreState) : Nat := to_uint32 0

/-- Lines 27-30: `return 320;` -/
def _get_framebuffer_width (_st : CoreState) : Nat := to_uint32 320

/-- Lines 36-39: `return 224;` -/
def _get_framebuffer_height (_st : CoreState) : Nat := to_uint32 224

/-- Lines 45-48: `return 640;` -/
def _get_framebuffer_pitch (_st : CoreState) : Nat := to_uint32 640

/-- Lines 59-62: `return 1;` -/
def _is_core_initialized (_st : CoreState) : Nat := to_uint32 1

/-- Lines 68-77: the sum of eight literals, converted to `uint32_t`. -/
def _get_total_memory_size (_st : CoreState) : Nat :=
  to_uint32 (0x800 + 0x10000 + 0x2000 + 0x20 + 0x400 + 0x10000 + 0x80 + 0x80)

/-- Line 86. -/
def _get_work_ram_size (_st : CoreState) : Nat := to_uint32 0x10000
/-- Line 88. -/
def _get_zram_size (_st : CoreState) : Nat := to_uint32 0x2000
/-- Line 90. -/
def _get_boot_rom_size (_st : CoreState) : Nat := to_uint32 0x800
/-- Line 92. -/
def _get_vdp_reg_size (_st : CoreState) : Nat := to_uint32 0x20
/-- Line 94. -/
def _get_sat_size (_st : CoreState) : Nat := to_uint32 0x400
/-- Line 96. -/
def _get_vram_size (_st : CoreState) : Nat := to_uint32 0x10000
/-- Line 98. -/
def _get_cram_size (_st : CoreState) : Nat := to_uint32 0x80
/-- Line 100. -/
def _get_vsram_size (_st : CoreState) : Nat := to_uint32 0x80

end Minimal

/-! ## Concrete states -/

/-- A freshly constructed core: zero-initialised `bitmap` and `system_hw`, the
region arrays placed one after another from address `0x10000`. -/
def freshCore : CoreState :=
  { bitmap := { data := 0, width := 0, height := 0, pitch := 0, depth := 0 }
    system_hw := 0
    work_ram := 0x10000
    zram := 0x20000
    reg := 0x22000
    sat := 0x22020
    vram := 0x22420
    cram := 0x32420
    vsram := 0x324A0 }

/-- The same core after the first frame of the primary platform
(`system_hw = 0x80`): a 320x224 RGB565 framebuffer at `0x40000`. -/
def renderedCore : CoreState :=
  { freshCore with
    bitmap := { data := 0x40000, width := 320, height := 224, pitch := 640, depth := 16 }
    system_hw := 0x80 }

/-- A core whose frontend renders with one byte per pixel: the framebuffer is
allocated and 320 pixels wide, and a row takes 320 bytes. -/
def bytePixelCore : CoreState :=
  { renderedCore with
    bitmap := { data := 0x40000, width := 320, height := 224, pitch := 320, depth := 8 } }

/-- The rendered core after a display-mode change to 256 pixels per row. -/
def narrowCore : CoreState :=
  { renderedCore with
    bitmap := { data := 0x40000, width := 256, height := 224, pitch := 512, depth := 16 } }

/-! ## The export surface as a set of calls on a state -/

/-- The exported functions of `emscripten_exports_corrected.c`. -/
inductive Query where
  | get_frame_buffer_ref
  | get_frame_buffer_width
  | get_frame_buffer_height
  | get_frame_buffer_pitch
  | get_work_ram_ptr
  | get_work_ram_size
  | get_zram_ptr
  | get_zram_size
  | get_vram_ptr
  | get_vram_size
  | get_cram_ptr
  | get_cram_size
  | get_vsram_ptr
  | get_vsram_size
  | get_vdp_regs_ptr
  | get_vdp_regs_size
  | get_sat_ptr
  | get_sat_size
  | is_core_initialized
  | get_total_memory_size
  | get_active_system_code
  deriving DecidableEq, Repr

/-- The value a query returns, as an integer. -/
def Query.eval : Query → CoreState → Int
  | .get_frame_buffer_ref, st => Int.ofNat (Corrected.get_frame_buffer_ref st)
  | .get_frame_buffer_width, st => Corrected.get_frame_buffer_width st
  | .get_frame_buffer_height, st => Corrected.get_frame_buffer_height st
  | .get_frame_buffer_pitch, st => Corrected.get_frame_buffer_pitch st
  | .get_work_ram_ptr, st => Int.ofNat (Corrected.get_work_ram_ptr st)
  | .get_work_ram_size, st => Corrected.get_work_ram_size st
  | .get_zram_ptr, st => Int.ofNat (Corrected.get_zram_ptr st)
  | .get_zram_size, st => Corrected.get_zram_size st
  | .get_vram_ptr, st => Int.ofNat (Corrected.get_vram_ptr st)
  | .get_vram_size, st => Corrected.get_vram_size st
  | .get_cram_ptr, st => Int.ofNat (Corrected.get_cram_ptr st)
  | .get_cram_size, st => Corrected.get_cram_size st
  | .get_vsram_ptr, st => Int.ofNat (Corrected.get_vsram_ptr st)
  | .get_vsram_size, st => Corrected.get_vsram_size st
  | .get_vdp_regs_ptr, st => Int.ofNat (Corrected.get_vdp_regs_ptr st)
  | .get_vdp_regs_size, st => Corrected.get_vdp_regs_size st
  | .get_sat_ptr, st => Int.ofNat (Corrected.get_sat_ptr st)
  | .get_sat_size, st => Corrected.get_sat_size st
  | .is_core_initialized, st => Corrected.is_core_initialized st
  | .get_total_memory_size, st => Corrected.get_total_memory_size st
  | .get_active_system_code, st => Corrected.get_active_system_code st

/-- One call of an exported function: the returned value and the state after
the call.  No exported function contains a store, so the state is passed on. -/
def Query.call (q : Query) (st : CoreState) : Int × CoreState := (q.eval st, st)

/-- The seven region size queries. -/
def Query.isSize : Query → Bool
  | .get_work_ram_size | .get_zram_size | .get_vram_size | .get_cram_size
  | .get_vsram_size | .get_vdp_regs_size | .get_sat_size => true
  | _ => false

/-- The globals a query reads agree in the two states: nothing for the size
queries and the total, the nullness of `bitmap.data` for the readiness query,
`system_hw` for the variant code, the returned bitmap field for a framebuffer
accessor, the array address for an address query. -/
def Query.sameInputs : Query → CoreState → CoreState → Prop
  | .get_frame_buffer_ref, s, t => s.bitmap.data = t.bitmap.data
  | .get_frame_buffer_width, s, t => s.bitmap.width = t.bitmap.width
  | .get_frame_buffer_height, s, t => s.bitmap.height = t.bitmap.height
  | .get_frame_buffer_pitch, s, t => s.bitmap.pitch = t.bitmap.pitch
  | .get_work_ram_ptr, s, t => s.work_ram = t.work_ram
  | .get_zram_ptr, s, t => s.zram = t.zram
  | .get_vram_ptr, s, t => s.vram = t.vram
  | .get_cram_ptr, s, t => s.cram = t.cram
  | .get_vsram_ptr, s, t => s.vsram = t.vsram
  | .get_vdp_regs_ptr, s, t => s.reg = t.reg
  | .get_sat_ptr, s, t => s.sat = t.sat
  | .is_core_initialized, s, t =>
      Corrected.is_core_initialized s = Corrected.is_core_initialized t
  | .get_active_system_code, s, t => s.system_hw = t.system_hw
  | _, _, _ => True

instance (q : Query) (s t : CoreState) : Decidable (q.sameInputs s t) := by
  cases q <;> unfold Query.sameInputs <;> infer_instance

/-! ## Auxiliary lemmas -/

theorem to_uint32_of_lt {a : Nat} (h : a < 2 ^ 32) : to_uint32 a = a := by
  unfold to_uint32
  exact Nat.mod_eq_of_lt h

theorem to_uint32_validObject {a n : Nat} (h : validObject a n) (hn : 0 < n) :
    to_uint32 a = a ∧ to_uint32 a ≠ 0 := by
  obtain ⟨h0, hle⟩ := h
  have hlt : a < 2 ^ 32 := by omega
  rw [to_uint32_of_lt hlt]
  exact ⟨rfl, h0⟩

theorem to_int_ofNat_of_lt {v : Nat} (h : v < 256) : to_int (Int.ofNat v) = (v : Int) := by
  unfold to_int
  simp only [Int.ofNat_eq_coe]
  omega

/-- C1, as stated, fails: on a fresh core the readiness query of the corrected
file returns 0 and the work RAM address query returns the non-zero address of
the array. -/
theorem C1_counterexample :
    Corrected.is_core_initialized freshCore = 0 ∧
    freshCore.wf ∧
    Corrected.get_work_ram_ptr freshCore ≠ 0 := by
  decide

/-- C1, amended: in every well-formed state in which `is_core_initialized`
returns 0, only the framebuffer address query returns the sentinel 0; each of
the seven region address queries returns the address of its statically
allocated array, which is not 0. -/
theorem C1_not_ready_addresses (st : CoreState) (hwf : st.wf)
    (hr : Corrected.is_core_initialized st = 0) :
    Corrected.get_frame_buffer_ref st = 0 ∧
    (Corrected.get_work_ram_ptr st = st.work_ram ∧ Corrected.get_work_ram_ptr st ≠ 0) ∧
    (Corrected.get_zram_ptr st = st.zram ∧ Corrected.get_zram_ptr st ≠ 0) ∧
    (Corrected.get_vram_ptr st = st.vram ∧ Corrected.get_vram_ptr st ≠ 0) ∧
    (Corrected.get_cram_ptr st = st.cram ∧ Corrected.get_cram_ptr st ≠ 0) ∧
    (Corrected.get_vsram_ptr st = st.vsram ∧ Corrected.get_vsram_ptr st ≠ 0) ∧
    (Corrected.get_vdp_regs_ptr st = st.reg ∧ Corrected.get_vdp_regs_ptr st ≠ 0) ∧
    (Corrected.get_sat_ptr st = st.sat ∧ Corrected.get_sat_ptr st ≠ 0) := by
  obtain ⟨_, _, _, _, _, _, hwork, hz, hreg, hsat, hvram, hcram, hvsram⟩ := hwf
  have hdata : st.bitmap.data = 0 := by
    unfold Corrected.is_core_initialized at hr
    by_cases hd : st.bitmap.data = 0
    · exact hd
    · simp [hd] at hr
  refine ⟨?_, to_uint32_validObject hwork (by decide), to_uint32_validObject hz (by decide),
    to_uint32_validObject hvram (by decide), to_uint32_validObject hcram (by decide),
    to_uint32_validObject hvsram (by decide), to_uint32_validObject hreg (by decide),
    to_uint32_validObject hsat (by decide)⟩
  unfold Corrected.get_frame_buffer_ref
  rw [hdata]
  rfl

theorem C1_not_ready_addresses_witness :
    freshCore.wf ∧ Corrected.is_core_initialized freshCore = 0 ∧
    Corrected.get_frame_buffer_ref freshCore = 0 ∧
    Corrected.get_vram_ptr freshCore ≠ 0 :=
  ⟨by decide, by decide,
    (C1_not_ready_addresses freshCore (by decide) (by decide)).1,
    (C1_not_ready_addresses freshCore (by decide) (by decide)).2.2.2.1.2⟩

/-- C2: in both files the total equals the sum of the individual size queries
of that file, in every state and so for every value of `system_hw`; the
eight-term sum of the minimal file stays below `2^32`. -/
theorem C2_total_is_sum (st : CoreState) :
    Corrected.get_total_memory_size st =
      Corrected.get_work_ram_size st + Corrected.get_zram_size st +
      Corrected.get_vram_size st + Corrected.get_cram_size st +
      Corrected.get_vsram_size st + Corrected.get_vdp_regs_size st +
      Corrected.get_sat_size st ∧
    Minimal._get_total_memory_size st =
      Minimal._get_boot_rom_size st + Minimal._get_work_ram_size st +
      Minimal._get_zram_size st + Minimal._get_vdp_reg_size st +
      Minimal._get_sat_size st + Minimal._get_vram_size st +
      Minimal._get_cram_size st + Minimal._get_vsram_size st ∧
    Minimal._get_boot_rom_size st + Minimal._get_work_ram_size st +
      Minimal._get_zram_size st + Minimal._get_vdp_reg_size st +
      Minimal._get_sat_size st + Minimal._get_vram_size st +
      Minimal._get_cram_size st + Minimal._get_vsram_size st < 2 ^ 32 := by
  refine ⟨?_, ?_, ?_⟩
  · simp only [Corrected.get_total_memory_size, Corrected.get_work_ram_size,
      Corrected.get_zram_size, Corrected.get_vram_size, Corrected.get_cram_size,
      Corrected.get_vsram_size, Corrected.get_vdp_regs_size, Corrected.get_sat_size]
    decide
  · simp only [Minimal._get_total_memory_size, Minimal._get_boot_rom_size,
      Minimal._get_work_ram_size, Minimal._get_zram_size, Minimal._get_vdp_reg_size,
      Minimal._get_sat_size, Minimal._get_vram_size, Minimal._get_cram_size,
      Minimal._get_vsram_size]
    decide
  · simp only [Minimal._get_boot_rom_size,
      Minimal._get_work_ram_size, Minimal._get_zram_size, Minimal._get_vdp_reg_size,
      Minimal._get_sat_size, Minimal._get_vram_size, Minimal._get_cram_size,
      Minimal._get_vsram_size]
    decide

/-- C3, as stated, fails: whatever code the core stores into `system_hw`, the
vertical-scroll size query does not return 0 and the work RAM size query does
not return 8192. -/
theorem C3_counterexample :
    ¬ ∃ code : Nat,
      Corrected.get_vsram_size (switch_variant renderedCore code) = 0 ∨
      Corrected.get_work_ram_size (switch_variant renderedCore code) = 8192 := by
  rintro ⟨code, h | h⟩
  · simp only [Corrected.get_vsram_size] at h
    exact absurd h (by decide)
  · simp only [Corrected.get_work_ram_size] at h
    exact absurd h (by decide)

/-- C3, amended: a switch of the active variant leaves every size query and
the total at its primary-platform value (vertical-scroll RAM 128, work RAM
65536); only the variant code query reflects the new code. -/
theorem C3_sizes_fixed_across_switch (st : CoreState) (code : Nat) :
    Corrected.get_vsram_size (switch_variant st code) = 128 ∧
    Corrected.get_work_ram_size (switch_variant st code) = 65536 ∧
    Corrected.get_zram_size (switch_variant st code) = Corrected.get_zram_size st ∧
    Corrected.get_vram_size (switch_variant st code) = Corrected.get_vram_size st ∧
    Corrected.get_cram_size (switch_variant st code) = Corrected.get_cram_size st ∧
    Corrected.get_vdp_regs_size (switch_variant st code) = Corrected.get_vdp_regs_size st ∧
    Corrected.get_sat_size (switch_variant st code) = Corrected.get_sat_size st ∧
    Corrected.get_total_memory_size (switch_variant st code) =
      Corrected.get_total_memory_size st ∧
    Corrected.get_active_system_code (switch_variant st code) = ((code % 256 : Nat) : Int) := by
  refine ⟨rfl, rfl, rfl, rfl, rfl, rfl, rfl, rfl, ?_⟩
  unfold Corrected.get_active_system_code switch_variant
  exact to_int_ofNat_of_lt (Nat.mod_lt _ (by decide))

/-- C4, as stated, fails: the total of the corrected file is not 140448, and
the total of the minimal file differs from the total of the corrected file. -/
theorem C4_counterexample :
    Corrected.get_total_memory_size renderedCore ≠ 140448 ∧
    (Minimal._get_total_memory_size renderedCore : Int) ≠
      Corrected.get_total_memory_size renderedCore := by
  decide

/-- C4, amended: the seven sizes are 65536, 8192, 65536, 128, 128, 32, 1024 in
both files; the total of the corrected file is their sum 140576; the total of
the minimal file is 142624, that sum plus the 2048 bytes of the boot ROM. -/
theorem C4_nominal_sizes (st : CoreState) :
    (Corrected.get_work_ram_size st = 65536 ∧ Corrected.get_zram_size st = 8192 ∧
     Corrected.get_vram_size st = 65536 ∧ Corrected.get_cram_size st = 128 ∧
     Corrected.get_vsram_size st = 128 ∧ Corrected.get_vdp_regs_size st = 32 ∧
     Corrected.get_sat_size st = 1024) ∧
    (Minimal._get_work_ram_size st = 65536 ∧ Minimal._get_zram_size st = 8192 ∧
     Minimal._get_vram_size st = 65536 ∧ Minimal._get_cram_size st = 128 ∧
     Minimal._get_vsram_size st = 128 ∧ Minimal._get_vdp_reg_size st = 32 ∧
     Minimal._get_sat_size st = 1024) ∧
    Corrected.get_total_memory_size st = 65536 + 8192 + 65536 + 128 + 128 + 32 + 1024 ∧
    Corrected.get_total_memory_size st = 140576 ∧
    Minimal._get_total_memory_size st = 142624 ∧
    (Minimal._get_total_memory_size st : Int) =
      Corrected.get_total_memory_size st + (Minimal._get_boot_rom_size st : Int) := by
  simp only [Corrected.get_total_memory_size, Corrected.get_work_ram_size,
    Corrected.get_zram_size, Corrected.get_vram_size, Corrected.get_cram_size,
    Corrected.get_vsram_size, Corrected.get_vdp_regs_size, Corrected.get_sat_size,
    Minimal._get_total_memory_size, Minimal._get_boot_rom_size,
    Minimal._get_work_ram_size, Minimal._get_zram_size, Minimal._get_vdp_reg_size,
    Minimal._get_sat_size, Minimal._get_vram_size, Minimal._get_cram_size,
    Minimal._get_vsram_size]
  decide

/-! ## Claims on readiness and the framebuffer -/

/-- C6, the failing input: on a fresh core (framebuffer pointer NULL) the
corrected file answers 0 and the minimal file answers 1; in the corrected file
the answer is 1 exactly when `bitmap.data` is not NULL and 0 otherwise, in the
minimal file it is 1 in every state. -/
theorem C6_minimal_ready_on_fresh_core :
    freshCore.bitmap.data = 0 ∧
    Corrected.is_core_initialized freshCore = 0 ∧
    Minimal._is_core_initialized freshCore = 1 ∧
    (∀ st : CoreState, Minimal._is_core_initialized st = 1) ∧
    (∀ st : CoreState,
      (Corrected.is_core_initialized st = 1 ↔ st.bitmap.data ≠ 0) ∧
      (Corrected.is_core_initialized st = 0 ↔ st.bitmap.data = 0) ∧
      (Corrected.is_core_initialized st = 1 ∨ Corrected.is_core_initialized st = 0)) := by
  refine ⟨rfl, by decide, by decide, fun _ => rfl, fun st => ?_⟩
  unfold Corrected.is_core_initialized
  by_cases hd : st.bitmap.data = 0 <;> simp [hd]

/-- C7, as stated, fails for the corrected file: on a fresh core the
framebuffer address query returns 0 and the width, height and pitch queries
return 0, not 320, 224 and 640. -/
theorem C7_counterexample :
    freshCore.bitmap.data = 0 ∧
    Corrected.get_frame_buffer_ref freshCore = 0 ∧
    Corrected.get_frame_buffer_width freshCore ≠ 320 ∧
    Corrected.get_frame_buffer_height freshCore ≠ 224 ∧
    Corrected.get_frame_buffer_pitch freshCore ≠ 640 := by
  decide

/-- C7, amended: before the first frame (`bitmap.data` NULL, `bitmap.width`,
`height` and `pitch` zero) both framebuffer address queries return 0; the
minimal file returns 320, 224 and 640 for width, height and pitch; the
corrected file returns the current `bitmap` fields, which are 0. -/
theorem C7_before_first_frame (st : CoreState)
    (hd : st.bitmap.data = 0) (hw : st.bitmap.width = 0)
    (hh : st.bitmap.height = 0) (hp : st.bitmap.pitch = 0) :
    Corrected.get_frame_buffer_ref st = 0 ∧
    Corrected.get_frame_buffer_width st = 0 ∧
    Corrected.get_frame_buffer_height st = 0 ∧
    Corrected.get_frame_buffer_pitch st = 0 ∧
    Minimal._get_framebuffer_ptr st = 0 ∧
    Minimal._get_framebuffer_width st = 320 ∧
    Minimal._get_framebuffer_height st = 224 ∧
    Minimal._get_framebuffer_pitch st = 640 := by
  refine ⟨?_, hw, hh, hp, rfl, rfl, rfl, rfl⟩
  unfold Corrected.get_frame_buffer_ref
  rw [hd]
  rfl

theorem C7_before_first_frame_witness :
    freshCore.bitmap.data = 0 ∧ freshCore.bitmap.width = 0 ∧
    Corrected.get_frame_buffer_width freshCore = 0 ∧
    Minimal._get_framebuffer_width freshCore = 320 :=
  ⟨rfl, rfl,
    (C7_before_first_frame freshCore rfl rfl rfl rfl).2.1,
    (C7_before_first_frame freshCore rfl rfl rfl rfl).2.2.2.2.2.1⟩

/-- C8, as stated, fails for the corrected file: with a framebuffer allocated,
320 pixels per row and one byte per pixel, the pitch query returns 320, less
than twice the width query. -/
theorem C8_counterexample :
    bytePixelCore.wf ∧
    Corrected.get_frame_buffer_ref bytePixelCore ≠ 0 ∧
    ¬ (Corrected.get_frame_buffer_pitch bytePixelCore ≥
        Corrected.get_frame_buffer_width bytePixelCore * 2) := by
  decide

/-- C8, amended: in every state the corrected file returns `bitmap.pitch` and
`bitmap.width` unchanged, so its pitch query is at least twice its width query
exactly in the states where `bitmap.pitch >= bitmap.width * 2`, whether or not
a frame has been rendered; among rendered states the bound holds at 320 pixels
with pitch 640 and at 256 pixels with pitch 512, and fails at 320 pixels with
pitch 320.  The minimal file returns pitch 640 and width 320 in every state, so
its pitch equals twice its width, and its framebuffer address query is always
0. -/
theorem C8_pitch_bound (st : CoreState) :
    Corrected.get_frame_buffer_pitch st = st.bitmap.pitch ∧
    Corrected.get_frame_buffer_width st = st.bitmap.width ∧
    (Corrected.get_frame_buffer_pitch st ≥ Corrected.get_frame_buffer_width st * 2 ↔
      st.bitmap.pitch ≥ st.bitmap.width * 2) ∧
    (Corrected.get_frame_buffer_ref renderedCore ≠ 0 ∧
      Corrected.get_frame_buffer_pitch renderedCore ≥
        Corrected.get_frame_buffer_width renderedCore * 2) ∧
    (Corrected.get_frame_buffer_ref narrowCore ≠ 0 ∧
      Corrected.get_frame_buffer_pitch narrowCore ≥
        Corrected.get_frame_buffer_width narrowCore * 2) ∧
    (Corrected.get_frame_buffer_ref bytePixelCore ≠ 0 ∧
      Corrected.get_frame_buffer_pitch bytePixelCore <
        Corrected.get_frame_buffer_width bytePixelCore * 2) ∧
    Minimal._get_framebuffer_pitch st = 640 ∧
    Minimal._get_framebuffer_width st = 320 ∧
    Minimal._get_framebuffer_pitch st = Minimal._get_framebuffer_width st * 2 ∧
    Minimal._get_framebuffer_ptr st = 0 := by
  refine ⟨rfl, rfl, Iff.rfl, by decide, by decide, by decide, rfl, rfl, ?_, rfl⟩
  unfold Minimal._get_framebuffer_pitch Minimal._get_framebuffer_width
  decide

/-! ## Claims on purity and the variant code -/

/-- C9, as stated, fails: two well-formed states with the same readiness and
the same `system_hw` give different results for the framebuffer width query. -/
theorem C9_counterexample :
    renderedCore.wf ∧ narrowCore.wf ∧
    Corrected.is_core_initialized renderedCore = Corrected.is_core_initialized narrowCore ∧
    renderedCore.system_hw = narrowCore.system_hw ∧
    (Query.get_frame_buffer_width.call renderedCore).1 ≠
      (Query.get_frame_buffer_width.call narrowCore).1 := by
  decide

/-- C9, amended: every query leaves the state unchanged and returns the same
result when repeated, and two states give the same result whenever they agree
on the globals the query reads: nothing for the size queries and the total,
the readiness for `is_core_initialized`, `system_hw` for the variant code, the
bitmap field for a framebuffer accessor, the array address for an address
query. -/
theorem C9_queries_pure (q : Query) (s t : CoreState) (h : q.sameInputs s t) :
    (q.call s).2 = s ∧
    q.call (q.call s).2 = q.call s ∧
    (q.call s).1 = (q.call t).1 := by
  refine ⟨rfl, rfl, ?_⟩
  cases q <;> simp only [Query.sameInputs] at h <;>
    simp only [Query.call, Query.eval, Corrected.get_frame_buffer_ref,
      Corrected.get_frame_buffer_width, Corrected.get_frame_buffer_height,
      Corrected.get_frame_buffer_pitch, Corrected.get_work_ram_ptr, Corrected.get_zram_ptr,
      Corrected.get_vram_ptr, Corrected.get_cram_ptr, Corrected.get_vsram_ptr,
      Corrected.get_vdp_regs_ptr, Corrected.get_sat_ptr, Corrected.get_work_ram_size,
      Corrected.get_zram_size, Corrected.get_vram_size, Corrected.get_cram_size,
      Corrected.get_vsram_size, Corrected.get_vdp_regs_size, Corrected.get_sat_size,
      Corrected.get_total_memory_size, Corrected.get_active_system_code, h]

theorem C9_queries_pure_witness :
    Query.get_vsram_size.sameInputs freshCore renderedCore ∧
    Corrected.is_core_initialized freshCore ≠ Corrected.is_core_initialized renderedCore ∧
    (Query.get_vsram_size.call freshCore).2 = freshCore ∧
    (Query.get_vsram_size.call freshCore).1 = (Query.get_vsram_size.call renderedCore).1 :=
  ⟨by decide, by decide,
    (C9_queries_pure Query.get_vsram_size freshCore renderedCore (by decide)).1,
    (C9_queries_pure Query.get_vsram_size freshCore renderedCore (by decide)).2.2⟩

/-- C10: for every `unsigned char` value of `system_hw` the variant code query
returns that value, between 0 and 255; different values give different codes;
after the core stores a new code the query returns the new code. -/
theorem C10_active_system_code (st : CoreState) (v w : Nat)
    (hst : st.system_hw < 256) (hv : v < 256) (hw : w < 256) :
    Corrected.get_active_system_code st = (st.system_hw : Int) ∧
    0 ≤ Corrected.get_active_system_code st ∧
    Corrected.get_active_system_code st ≤ 255 ∧
    Corrected.get_active_system_code (switch_variant st v) = (v : Int) ∧
    (Corrected.get_active_system_code (switch_variant st v) =
      Corrected.get_active_system_code (switch_variant st w) → v = w) := by
  have hcode : ∀ u : Nat, u < 256 →
      Corrected.get_active_system_code (switch_variant st u) = (u : Int) := by
    intro u hu
    unfold Corrected.get_active_system_code switch_variant
    simp only [Nat.mod_eq_of_lt hu]
    exact to_int_ofNat_of_lt hu
  have hraw : Corrected.get_active_system_code st = (st.system_hw : Int) := by
    unfold Corrected.get_active_system_code
    exact to_int_ofNat_of_lt hst
  refine ⟨hraw, ?_, ?_, hcode v hv, ?_⟩
  · rw [hraw]; omega
  · rw [hraw]; omega
  · intro heq
    rw [hcode v hv, hcode w hw] at heq
    exact_mod_cast heq

theorem C10_active_system_code_witness :
    renderedCore.system_hw < 256 ∧ 0x20 < 256 ∧ 0x40 < 256 ∧
    Corrected.get_active_system_code renderedCore = 128 ∧
    Corrected.get_active_system_code (switch_variant renderedCore 0x20) = 32 :=
  ⟨by decide, by decide, by decide,
    (C10_active_system_code renderedCore 0x20 0x40 (by decide) (by decide) (by decide)).1,
    (C10_active_system_code renderedCore 0x20 0x40 (by decide) (by decide) (by decide)).2.2.2.1⟩

end GenesisExports
